import Mathlib

/-!
Shallow embedding of the fredLoan Ledger engine (pkg/ledger/ledger.go,
pkg/models/models.go, pkg/store), for checking the natural-language
specification against the code.

Modelling choices, each traceable to the source:
* shopspring decimal values are embedded as `ℚ`.  `Add`, `Sub`, `Mul` on
  decimals are exact, so they map to the exact rational operations.
  `Div` is `DivRound` at `DivisionPrecision = 16`: the quotient is rounded
  to 16 decimal places, ties away from zero; it is modelled by `divRound16`.
* `uuid.UUID` identifiers are embedded as `ℕ`; fresh uuids appear as
  explicit parameters.  Transaction ids produced inside batch passes carry
  the placeholder `0` (no claim depends on them).
* `time.Time` values are embedded as `ℕ` tick counts; a calendar date
  (already truncated to day granularity, as the code truncates with
  `Truncate(24h)`) is a `ℕ` day index, and a day-of-month is a `ℕ`.
* The store (`MockStore` map / SQLite table keyed by primary-key id) is a
  list of loans plus an append-only list of transactions; an update
  replaces the record whose id matches (ids are unique in both real
  stores).  Store calls that can fail are driven by explicit boolean
  failure flags; a failed call leaves the store unchanged, exactly as a
  failed map/SQL write does.
-/

/-- Transaction types, from `models.TransactionType`. -/
inductive TransactionType where
  | disbursement
  | payment
  | interest
deriving DecidableEq, Repr

/-- `models.Transaction`. -/
structure Transaction where
  id : ℕ
  loanId : ℕ
  amount : ℚ
  type : TransactionType
  timestamp : ℕ
deriving DecidableEq, Repr

/-- `models.Loan`.  `interestRate` is the stored effective rate. -/
structure Loan where
  id : ℕ
  customerKey : String
  principal : ℚ
  balance : ℚ
  baseInterestRate : ℚ
  interestRateVariance : ℚ
  interestRate : ℚ
  status : String
  createdAt : ℕ
  updatedAt : ℕ
  lastInterestCalculationDate : Option ℕ
  statementCycleDay : ℕ
  accruedInterest : ℚ
deriving DecidableEq, Repr

/-- The persistent store state: loans table plus append-only transactions. -/
structure StoreState where
  loans : List Loan
  txns : List Transaction
deriving DecidableEq, Repr

/-- Round a rational to the nearest integer, ties away from zero —
the rounding mode of shopspring `DivRound`. -/
def roundHalfAwayFromZero (q : ℚ) : ℤ :=
  if 0 ≤ q then ⌊q + 1/2⌋ else -⌊-q + 1/2⌋

/-- shopspring `Decimal.Div`: `DivRound(d2, DivisionPrecision)` with
`DivisionPrecision = 16`, i.e. the quotient rounded to 16 decimal
places, ties away from zero. -/
def divRound16 (x y : ℚ) : ℚ :=
  (roundHalfAwayFromZero (x / y * 10^16) : ℚ) / 10^16

/-- `store.GetLoan` / map lookup: first loan whose id matches. -/
def getLoan (s : StoreState) (loanId : ℕ) : Option Loan :=
  s.loans.find? (fun l => l.id = loanId)

/-- Replace the first loan whose id is `loanId` by `l'`
(`m.loans[loan.ID] = loan` in the mock store, `UPDATE … WHERE id = ?`
in SQLite; ids are unique in both). -/
def replaceById (loanId : ℕ) (l' : Loan) : List Loan → List Loan
  | [] => []
  | l :: rest =>
      if l.id = loanId then l' :: rest
      else l :: replaceById loanId l' rest

/-- `store.UpdateLoan` as used by the engine (the record is known to exist). -/
def storeUpdateLoan (s : StoreState) (l' : Loan) : StoreState :=
  { s with loans := replaceById l'.id l' s.loans }

/-- `store.CreateTransaction`: append to the transactions log. -/
def storeCreateTransaction (s : StoreState) (t : Transaction) : StoreState :=
  { s with txns := s.txns ++ [t] }

/-- `Ledger.assignStatementCycleDay`: `rand.Intn(28) + 1`, with the raw
random draw `r` made explicit; `Intn` reduces it into `[0, 28)`. -/
def assignStatementCycleDay (r : ℕ) : ℕ :=
  r % (28 - 1 + 1) + 1

/-- `Ledger.CreateLoan`.  `failCreate` / `failTxn` inject failure of the
two store calls (`storage.CreateLoan`, `storage.CreateTransaction`);
`rand` is the statement-cycle random draw, `loanId`/`txnId` the fresh
uuids, `now` the clock.  Returns the new store and the Go result. -/
def createLoan (failCreate failTxn : Bool) (s : StoreState)
    (customerKey : String) (principal baseRate variance : ℚ)
    (rand loanId txnId now : ℕ) : StoreState × Except String Loan :=
  let loan : Loan :=
    { id := loanId
      customerKey := customerKey
      principal := principal
      balance := principal
      baseInterestRate := baseRate
      interestRateVariance := variance
      interestRate := baseRate + variance
      status := "active"
      createdAt := now
      updatedAt := now
      lastInterestCalculationDate := none
      statementCycleDay := assignStatementCycleDay rand
      accruedInterest := 0 }
  if failCreate then
    (s, Except.error "failed to store loan")
  else
    let s1 : StoreState := { s with loans := s.loans ++ [loan] }
    if failTxn then
      (s1, Except.error "failed to store disbursement transaction")
    else
      let t : Transaction :=
        { id := txnId, loanId := loan.id, amount := principal
          type := TransactionType.disbursement, timestamp := now }
      (storeCreateTransaction s1 t, Except.ok loan)

/-- `Ledger.RecordPayment`.  `failUpdate` / `failTxn` inject failure of
`storage.UpdateLoan` and `storage.CreateTransaction`. -/
def recordPayment (failUpdate failTxn : Bool) (s : StoreState)
    (loanId : ℕ) (amount : ℚ) (txnId now : ℕ) :
    StoreState × Except String Transaction :=
  match getLoan s loanId with
  | none => (s, Except.error "loan not found")
  | some loan =>
      if loan.status ≠ "active" then
        (s, Except.error "loan is not active")
      else
        let b := loan.balance - amount
        let loan' : Loan :=
          if b ≤ 0 then
            { loan with balance := 0, status := "closed", updatedAt := now }
          else
            { loan with balance := b, updatedAt := now }
        if failUpdate then
          (s, Except.error "failed to update loan balance")
        else
          let s1 := storeUpdateLoan s loan'
          let t : Transaction :=
            { id := txnId, loanId := loan.id, amount := amount
              type := TransactionType.payment, timestamp := now }
          if failTxn then
            (s1, Except.error "failed to store payment transaction")
          else
            (storeCreateTransaction s1 t, Except.ok t)

/-- The per-loan body of `Ledger.CalculateDailyInterest`, applied to one
loan returned by `GetAllActiveLoans`.  `today` is the truncated calendar
date `time.Now().UTC().Truncate(24h)`. -/
def dailyStep (today now : ℕ) (loan : Loan) : Loan :=
  if loan.lastInterestCalculationDate = some today then
    loan
  else
    let dailyRate := divRound16 loan.interestRate 365
    let interestAmount := loan.balance * dailyRate
    if 0 < interestAmount then
      { loan with
          accruedInterest := loan.accruedInterest + interestAmount
          updatedAt := now
          lastInterestCalculationDate := some today }
    else
      loan

/-- `Ledger.CalculateDailyInterest`: every loan from `GetAllActiveLoans`
goes through `dailyStep` and is written back by id (ids are the store's
primary key, so the write-backs act on disjoint records); inactive loans
are untouched.  No transaction is recorded. -/
def calculateDailyInterest (today now : ℕ) (s : StoreState) : StoreState :=
  { s with
      loans := s.loans.map (fun l =>
        if l.status = "active" then dailyStep today now l else l) }

/-- The per-loan body of `Ledger.ApplyMonthlyInterest` for one active
loan: the written-back loan record, and the interest transaction that
the pass appends for it (if any).  `failTxn` injects failure of
`storage.CreateTransaction` (the pass logs and continues: nothing is
persisted for this loan); `failUpdate` injects failure of
`storage.UpdateLoan` (the transaction was already appended, the loan
record keeps its old state). -/
def applyMonthlyOne (failTxn failUpdate : Bool) (todayDay now : ℕ)
    (loan : Loan) : Loan × Option Transaction :=
  if loan.statementCycleDay = todayDay ∧ 0 < loan.accruedInterest then
    let t : Transaction :=
      { id := 0, loanId := loan.id, amount := loan.accruedInterest
        type := TransactionType.interest, timestamp := now }
    if failTxn then (loan, none)
    else if failUpdate then (loan, some t)
    else
      ({ loan with
          balance := loan.balance + loan.accruedInterest
          updatedAt := now
          accruedInterest := 0 }, some t)
  else
    (loan, none)

/-- Iteration of `Ledger.ApplyMonthlyInterest` over the loan list:
active loans go through `applyMonthlyOne`, inactive loans are skipped
by the `GetAllActiveLoans` filter; the appended interest transactions
are collected in iteration order. -/
def monthlyProcess (failTxn failUpdate : Bool) (todayDay now : ℕ) :
    List Loan → List Loan × List Transaction
  | [] => ([], [])
  | l :: rest =>
      let tail := monthlyProcess failTxn failUpdate todayDay now rest
      if l.status = "active" then
        let r := applyMonthlyOne failTxn failUpdate todayDay now l
        (r.1 :: tail.1, r.2.toList ++ tail.2)
      else
        (l :: tail.1, tail.2)

/-- `Ledger.ApplyMonthlyInterest`.  `todayDay` is `time.Now().Day()`. -/
def applyMonthlyInterest (failTxn failUpdate : Bool) (todayDay now : ℕ)
    (s : StoreState) : StoreState :=
  let r := monthlyProcess failTxn failUpdate todayDay now s.loans
  { loans := r.1, txns := s.txns ++ r.2 }

/-- `Ledger.UpdateLoan`: refresh `UpdatedAt`, then a whole-record replace
by id via `storage.UpdateLoan`, which reports "loan not found" when no
record has the id. -/
def ledgerUpdateLoan (s : StoreState) (loan : Loan) (now : ℕ) :
    StoreState × Except String Unit :=
  let loan' := { loan with updatedAt := now }
  if s.loans.any (fun l => l.id = loan.id) then
    (storeUpdateLoan s loan', Except.ok ())
  else
    (s, Except.error "loan not found")

/-- `Ledger.DeleteLoan` / `store.DeleteLoan`: delete the loan's
transactions and the loan row in one store transaction; "loan not
found" when no row matches (the whole unit rolls back). -/
def ledgerDeleteLoan (s : StoreState) (loanId : ℕ) :
    StoreState × Except String Unit :=
  if s.loans.any (fun l => l.id = loanId) then
    ({ loans := s.loans.filter (fun l => ¬ l.id = loanId)
       txns := s.txns.filter (fun t => ¬ t.loanId = loanId) },
     Except.ok ())
  else
    (s, Except.error "loan not found")

/-- `recordPaymentHandler` in cmd/api/main.go: the HTTP layer rejects a
non-positive amount with "Amount must be positive" before the engine is
invoked; otherwise it calls `Ledger.RecordPayment`. -/
def recordPaymentHandler (s : StoreState) (loanId : ℕ) (amount : ℚ)
    (txnId now : ℕ) : StoreState × Except String Transaction :=
  if amount ≤ 0 then
    (s, Except.error "Amount must be positive")
  else
    recordPayment false false s loanId amount txnId now

/-- One engine operation of the failure-free interface, for reasoning
about operation sequences (creations, daily accruals, monthly
capitalizations, payments). -/
inductive Op where
  | create (customerKey : String) (principal baseRate variance : ℚ)
      (rand loanId txnId now : ℕ)
  | daily (today now : ℕ)
  | monthly (todayDay now : ℕ)
  | payment (loanId : ℕ) (amount : ℚ) (txnId now : ℕ)
deriving DecidableEq, Repr

/-- Effect of one failure-free engine operation on the store. -/
def step (s : StoreState) : Op → StoreState
  | Op.create ck principal baseRate variance rand loanId txnId now =>
      (createLoan false false s ck principal baseRate variance
        rand loanId txnId now).1
  | Op.daily today now => calculateDailyInterest today now s
  | Op.monthly todayDay now => applyMonthlyInterest false false todayDay now s
  | Op.payment loanId amount txnId now =>
      (recordPayment false false s loanId amount txnId now).1

/-- A sequence of engine operations, run left to right. -/
def run (s : StoreState) (ops : List Op) : StoreState :=
  ops.foldl step s

/-- The signed contribution of one transaction to the ledger total:
disbursements and interest flow in, payments flow out. -/
def signedAmount (t : Transaction) : ℚ :=
  match t.type with
  | TransactionType.disbursement => t.amount
  | TransactionType.interest => t.amount
  | TransactionType.payment => -t.amount

/-- Net of the transaction log. -/
def txnNet (s : StoreState) : ℚ :=
  (s.txns.map signedAmount).sum

/-- Sum of current loan balances. -/
def balanceSum (s : StoreState) : ℚ :=
  (s.loans.map Loan.balance).sum

/-- Sum of current accrued-interest values. -/
def accruedSum (s : StoreState) : ℚ :=
  (s.loans.map Loan.accruedInterest).sum

/-- An operation is overpayment-free in a state when, if it is a payment
that will actually be applied (loan found and active), the amount does
not exceed the loan's current balance.  (Clamped overpayments absorb
the excess and break ledger conservation.) -/
def opNoOverpay (s : StoreState) : Op → Bool
  | Op.payment loanId amount _ _ =>
      match getLoan s loanId with
      | none => true
      | some loan =>
          if loan.status = "active" then decide (amount ≤ loan.balance)
          else true
  | _ => true

/-- A trace is overpayment-free when every operation is, in the state it
runs in. -/
def traceNoOverpay (s : StoreState) : List Op → Bool
  | [] => true
  | op :: ops => opNoOverpay s op && traceNoOverpay (step s op) ops

/-! ### Helper lemmas about the store primitives -/

lemma find_replaceById (i : ℕ) (l' : Loan) (ls : List Loan) (loan : Loan)
    (hf : ls.find? (fun l => l.id = i) = some loan) (hid : l'.id = i) :
    (replaceById i l' ls).find? (fun l => l.id = i) = some l' := by
  induction ls with
  | nil => simp [List.find?] at hf
  | cons x rest ih =>
      by_cases hx : x.id = i
      · simp [replaceById, hx, List.find?, hid]
      · simp only [replaceById, if_neg hx]
        rw [List.find?_cons_of_neg _ (by simpa using hx)] at hf
        rw [List.find?_cons_of_neg _ (by simpa using hx)]
        exact ih hf

lemma mem_replaceById (i : ℕ) (l' : Loan) (ls : List Loan) (x : Loan)
    (hx : x ∈ replaceById i l' ls) : x ∈ ls ∨ x = l' := by
  induction ls with
  | nil => simp [replaceById] at hx
  | cons y rest ih =>
      by_cases hy : y.id = i
      · simp only [replaceById, if_pos hy] at hx
        rcases List.mem_cons.mp hx with h | h
        · exact Or.inr h
        · exact Or.inl (List.mem_cons_of_mem _ h)
      · simp only [replaceById, if_neg hy] at hx
        rcases List.mem_cons.mp hx with h | h
        · exact Or.inl (by simp [h])
        · rcases ih h with h2 | h2
          · exact Or.inl (List.mem_cons_of_mem _ h2)
          · exact Or.inr h2

lemma mem_replaceById_of_ne (i : ℕ) (l' : Loan) (ls : List Loan)
    (loan x : Loan) (hf : ls.find? (fun l => l.id = i) = some loan)
    (hx : x ∈ ls) (hne : x ≠ loan) : x ∈ replaceById i l' ls := by
  induction ls with
  | nil => simp at hx
  | cons y rest ih =>
      by_cases hy : y.id = i
      · rw [List.find?_cons_of_pos _ (by simpa using hy)] at hf
        have hyl : y = loan := by simpa using hf
        simp only [replaceById, if_pos hy]
        rcases List.mem_cons.mp hx with h | h
        · exact absurd (h.trans hyl) hne
        · exact List.mem_cons_of_mem _ h
      · rw [List.find?_cons_of_neg _ (by simpa using hy)] at hf
        simp only [replaceById, if_neg hy]
        rcases List.mem_cons.mp hx with h | h
        · exact List.mem_cons.mpr (Or.inl h)
        · exact List.mem_cons_of_mem _ (ih hf h)

lemma balanceSum_replaceById (i : ℕ) (l' : Loan) (ls : List Loan)
    (loan : Loan) (hf : ls.find? (fun l => l.id = i) = some loan) :
    ((replaceById i l' ls).map Loan.balance).sum =
      (ls.map Loan.balance).sum - loan.balance + l'.balance := by
  induction ls with
  | nil => simp [List.find?] at hf
  | cons x rest ih =>
      by_cases hx : x.id = i
      · rw [List.find?_cons_of_pos _ (by simpa using hx)] at hf
        have hxl : x = loan := by simpa using hf
        subst hxl
        simp only [replaceById, if_pos hx, List.map_cons, List.sum_cons]
        ring
      · rw [List.find?_cons_of_neg _ (by simpa using hx)] at hf
        simp only [replaceById, if_neg hx, List.map_cons, List.sum_cons, ih hf]
        ring

/-! ### Helper lemmas about the daily accrual pass -/

lemma dailyStep_balance (today now : ℕ) (l : Loan) :
    (dailyStep today now l).balance = l.balance := by
  unfold dailyStep
  split
  · rfl
  · dsimp only
    split <;> rfl

lemma dailyStep_status (today now : ℕ) (l : Loan) :
    (dailyStep today now l).status = l.status := by
  unfold dailyStep
  split
  · rfl
  · dsimp only
    split <;> rfl

lemma dailyStep_of_done (today now : ℕ) (l : Loan)
    (h : l.lastInterestCalculationDate = some today) :
    dailyStep today now l = l := by
  unfold dailyStep
  rw [if_pos h]

lemma dailyStep_of_pos (today now : ℕ) (l : Loan)
    (h : ¬ l.lastInterestCalculationDate = some today)
    (hpos : 0 < l.balance * divRound16 l.interestRate 365) :
    dailyStep today now l =
      { l with
          accruedInterest :=
            l.accruedInterest + l.balance * divRound16 l.interestRate 365
          updatedAt := now
          lastInterestCalculationDate := some today } := by
  unfold dailyStep
  rw [if_neg h, if_pos (by simpa [mul_comm] using hpos)]

lemma dailyStep_of_nonpos (today now : ℕ) (l : Loan)
    (h : ¬ l.lastInterestCalculationDate = some today)
    (hpos : ¬ 0 < l.balance * divRound16 l.interestRate 365) :
    dailyStep today now l = l := by
  unfold dailyStep
  rw [if_neg h, if_neg (by simpa [mul_comm] using hpos)]

lemma dailyStep_idem (today now now₂ : ℕ) (l : Loan) :
    dailyStep today now₂ (dailyStep today now l) = dailyStep today now l := by
  by_cases h : l.lastInterestCalculationDate = some today
  · rw [dailyStep_of_done today now l h, dailyStep_of_done today now₂ l h]
  · by_cases hpos : 0 < l.balance * divRound16 l.interestRate 365
    · rw [dailyStep_of_pos today now l h hpos]
      exact dailyStep_of_done today now₂ _ rfl
    · rw [dailyStep_of_nonpos today now l h hpos]
      exact dailyStep_of_nonpos today now₂ l h hpos

lemma calcDaily_txns (today now : ℕ) (s : StoreState) :
    (calculateDailyInterest today now s).txns = s.txns := rfl

lemma calcDaily_balanceSum (today now : ℕ) (s : StoreState) :
    balanceSum (calculateDailyInterest today now s) = balanceSum s := by
  unfold balanceSum calculateDailyInterest
  rw [List.map_map]
  congr 1
  apply List.map_congr_left
  intro l _
  by_cases hl : l.status = "active" <;>
    simp [hl, dailyStep_balance]

lemma calcDaily_idem (today now now₂ : ℕ) (s : StoreState) :
    calculateDailyInterest today now₂ (calculateDailyInterest today now s) =
      calculateDailyInterest today now s := by
  unfold calculateDailyInterest
  simp only [List.map_map]
  congr 1
  apply List.map_congr_left
  intro l _
  by_cases hl : l.status = "active"
  · simp [hl, dailyStep_status, dailyStep_idem]
  · simp [hl]

lemma mem_calcDaily_of_active (today now : ℕ) (s : StoreState) (l : Loan)
    (hm : l ∈ s.loans) (hl : l.status = "active") :
    dailyStep today now l ∈ (calculateDailyInterest today now s).loans := by
  unfold calculateDailyInterest
  simpa [hl] using
    List.mem_map_of_mem
      (fun x => if x.status = "active" then dailyStep today now x else x) hm

/-! ### Helper lemmas about the monthly capitalization pass -/

lemma applyMonthlyOne_fires (failTxn failUpdate : Bool) (todayDay now : ℕ)
    (l : Loan) (hd : l.statementCycleDay = todayDay)
    (ha : 0 < l.accruedInterest) :
    applyMonthlyOne failTxn failUpdate todayDay now l =
      (if failTxn then (l, none)
       else if failUpdate then
         (l, some { id := 0, loanId := l.id, amount := l.accruedInterest
                    type := TransactionType.interest, timestamp := now })
       else
         ({ l with
              balance := l.balance + l.accruedInterest
              updatedAt := now
              accruedInterest := 0 },
          some { id := 0, loanId := l.id, amount := l.accruedInterest
                 type := TransactionType.interest, timestamp := now })) := by
  unfold applyMonthlyOne
  rw [if_pos ⟨hd, ha⟩]

lemma applyMonthlyOne_skips (failTxn failUpdate : Bool) (todayDay now : ℕ)
    (l : Loan) (h : ¬ (l.statementCycleDay = todayDay ∧ 0 < l.accruedInterest)) :
    applyMonthlyOne failTxn failUpdate todayDay now l = (l, none) := by
  unfold applyMonthlyOne
  rw [if_neg h]

lemma applyMonthlyOne_txn_loanId (failTxn failUpdate : Bool)
    (todayDay now : ℕ) (l : Loan) (t : Transaction)
    (ht : t ∈ (applyMonthlyOne failTxn failUpdate todayDay now l).2.toList) :
    t.loanId = l.id := by
  by_cases h : l.statementCycleDay = todayDay ∧ 0 < l.accruedInterest
  · rw [applyMonthlyOne_fires failTxn failUpdate todayDay now l h.1 h.2] at ht
    cases failTxn
    · cases failUpdate <;> simp_all
    · simp at ht
  · rw [applyMonthlyOne_skips failTxn failUpdate todayDay now l h] at ht
    simp at ht

lemma monthlyProcess_mem (failTxn failUpdate : Bool) (todayDay now : ℕ)
    (ls : List Loan) (l : Loan) (hm : l ∈ ls) (hl : l.status = "active") :
    (applyMonthlyOne failTxn failUpdate todayDay now l).1 ∈
      (monthlyProcess failTxn failUpdate todayDay now ls).1 := by
  induction ls with
  | nil => simp at hm
  | cons x rest ih =>
      rcases List.mem_cons.mp hm with h | h
      · subst h
        simp only [monthlyProcess, if_pos hl]
        exact List.mem_cons_self _ _
      · by_cases hx : x.status = "active" <;>
          simp only [monthlyProcess, if_pos, if_neg, hx] <;>
          exact List.mem_cons_of_mem _ (ih h)

lemma monthlyProcess_mem_inactive (failTxn failUpdate : Bool)
    (todayDay now : ℕ) (ls : List Loan) (l : Loan) (hm : l ∈ ls)
    (hl : ¬ l.status = "active") :
    l ∈ (monthlyProcess failTxn failUpdate todayDay now ls).1 := by
  induction ls with
  | nil => simp at hm
  | cons x rest ih =>
      rcases List.mem_cons.mp hm with h | h
      · subst h
        simp only [monthlyProcess, if_neg hl]
        exact List.mem_cons_self _ _
      · by_cases hx : x.status = "active" <;>
          simp only [monthlyProcess, if_pos, if_neg, hx] <;>
          exact List.mem_cons_of_mem _ (ih h)

lemma monthlyProcess_txn_mem (failTxn failUpdate : Bool) (todayDay now : ℕ)
    (ls : List Loan) (l : Loan) (t : Transaction) (hm : l ∈ ls)
    (hl : l.status = "active")
    (ht : t ∈ (applyMonthlyOne failTxn failUpdate todayDay now l).2.toList) :
    t ∈ (monthlyProcess failTxn failUpdate todayDay now ls).2 := by
  induction ls with
  | nil => simp at hm
  | cons x rest ih =>
      rcases List.mem_cons.mp hm with h | h
      · subst h
        simp only [monthlyProcess, if_pos hl]
        exact List.mem_append_left _ ht
      · by_cases hx : x.status = "active"
        · simp only [monthlyProcess, if_pos hx]
          exact List.mem_append_right _ (ih h)
        · simp only [monthlyProcess, if_neg hx]
          exact ih h

lemma monthlyProcess_txns_loanIds (failTxn failUpdate : Bool)
    (todayDay now : ℕ) (ls : List Loan) (t : Transaction)
    (ht : t ∈ (monthlyProcess failTxn failUpdate todayDay now ls).2) :
    t.loanId ∈ ls.map Loan.id := by
  induction ls with
  | nil => simp [monthlyProcess] at ht
  | cons x rest ih =>
      by_cases hx : x.status = "active"
      · simp only [monthlyProcess, if_pos hx] at ht
        rcases List.mem_append.mp ht with h | h
        · simp [applyMonthlyOne_txn_loanId failTxn failUpdate todayDay now x t h]
        · simpa using Or.inr (by simpa using ih h)
      · simp only [monthlyProcess, if_neg hx] at ht
        simpa using Or.inr (by simpa using ih ht)

lemma monthlyProcess_filter_nil (failTxn failUpdate : Bool)
    (todayDay now : ℕ) (ls : List Loan) (i : ℕ)
    (h : i ∉ ls.map Loan.id) :
    (monthlyProcess failTxn failUpdate todayDay now ls).2.filter
      (fun t => t.loanId = i) = [] := by
  rw [List.filter_eq_nil_iff]
  intro t ht
  have := monthlyProcess_txns_loanIds failTxn failUpdate todayDay now ls t ht
  simp only [decide_eq_true_eq]
  intro he
  exact h (he ▸ this)

lemma monthlyProcess_filter (failTxn failUpdate : Bool) (todayDay now : ℕ)
    (ls : List Loan) (l : Loan) (hn : (ls.map Loan.id).Nodup) (hm : l ∈ ls) :
    (monthlyProcess failTxn failUpdate todayDay now ls).2.filter
        (fun t => t.loanId = l.id) =
      if l.status = "active" then
        ((applyMonthlyOne failTxn failUpdate todayDay now l).2.toList).filter
          (fun t => t.loanId = l.id)
      else [] := by
  induction ls with
  | nil => simp at hm
  | cons x rest ih =>
      simp only [List.map_cons, List.nodup_cons] at hn
      rcases List.mem_cons.mp hm with h | h
      · subst h
        by_cases hl : l.status = "active"
        · simp only [monthlyProcess, if_pos hl, List.filter_append]
          rw [monthlyProcess_filter_nil failTxn failUpdate todayDay now rest
            l.id hn.1]
          simp [hl]
        · simp only [monthlyProcess, if_neg hl]
          rw [monthlyProcess_filter_nil failTxn failUpdate todayDay now rest
            l.id hn.1]
      · have hxl : ¬ x.id = l.id := by
          intro he
          exact hn.1 (he ▸ List.mem_map_of_mem Loan.id h)
        by_cases hx : x.status = "active"
        · simp only [monthlyProcess, if_pos hx, List.filter_append]
          have hown : ((applyMonthlyOne failTxn failUpdate todayDay now
              x).2.toList).filter (fun t => t.loanId = l.id) = [] := by
            rw [List.filter_eq_nil_iff]
            intro t ht
            have := applyMonthlyOne_txn_loanId failTxn failUpdate todayDay
              now x t ht
            simp only [decide_eq_true_eq]
            intro he
            exact hxl (this ▸ he)
          rw [hown, List.nil_append]
          exact ih hn.2 h
        · simp only [monthlyProcess, if_neg hx]
          exact ih hn.2 h

lemma applyMonthlyOne_balance (todayDay now : ℕ) (l : Loan) :
    (applyMonthlyOne false false todayDay now l).1.balance =
      l.balance +
        ((applyMonthlyOne false false todayDay now l).2.toList.map
          signedAmount).sum := by
  by_cases h : l.statementCycleDay = todayDay ∧ 0 < l.accruedInterest
  · rw [applyMonthlyOne_fires false false todayDay now l h.1 h.2]
    simp [signedAmount]
  · rw [applyMonthlyOne_skips false false todayDay now l h]
    simp

lemma monthlyProcess_balanceSum (todayDay now : ℕ) (ls : List Loan) :
    ((monthlyProcess false false todayDay now ls).1.map Loan.balance).sum =
      (ls.map Loan.balance).sum +
        ((monthlyProcess false false todayDay now ls).2.map
          signedAmount).sum := by
  induction ls with
  | nil => simp [monthlyProcess]
  | cons x rest ih =>
      by_cases hx : x.status = "active"
      · simp only [monthlyProcess, if_pos hx, List.map_cons, List.sum_cons,
          List.map_append, List.sum_append, ih,
          applyMonthlyOne_balance todayDay now x]
        ring
      · simp only [monthlyProcess, if_neg hx, List.map_cons, List.sum_cons,
          ih]
        ring

/-! ### Helper lemmas about payment recording -/

lemma recordPayment_not_found (failUpdate failTxn : Bool) (s : StoreState)
    (loanId : ℕ) (amount : ℚ) (txnId now : ℕ)
    (h : getLoan s loanId = none) :
    recordPayment failUpdate failTxn s loanId amount txnId now =
      (s, Except.error "loan not found") := by
  unfold recordPayment
  rw [h]

lemma recordPayment_not_active (failUpdate failTxn : Bool) (s : StoreState)
    (loanId : ℕ) (amount : ℚ) (txnId now : ℕ) (loan : Loan)
    (h : getLoan s loanId = some loan) (hst : ¬ loan.status = "active") :
    recordPayment failUpdate failTxn s loanId amount txnId now =
      (s, Except.error "loan is not active") := by
  unfold recordPayment
  rw [h]
  simp [hst]

lemma recordPayment_clamp (s : StoreState) (loanId : ℕ) (amount : ℚ)
    (txnId now : ℕ) (loan : Loan) (h : getLoan s loanId = some loan)
    (hst : loan.status = "active") (hb : loan.balance - amount ≤ 0) :
    recordPayment false false s loanId amount txnId now =
      (storeCreateTransaction
        (storeUpdateLoan s
          { loan with balance := 0, status := "closed", updatedAt := now })
        { id := txnId, loanId := loan.id, amount := amount
          type := TransactionType.payment, timestamp := now },
       Except.ok
        { id := txnId, loanId := loan.id, amount := amount
          type := TransactionType.payment, timestamp := now }) := by
  unfold recordPayment
  rw [h]
  simp [hst, hb]

lemma recordPayment_noclamp (s : StoreState) (loanId : ℕ) (amount : ℚ)
    (txnId now : ℕ) (loan : Loan) (h : getLoan s loanId = some loan)
    (hst : loan.status = "active") (hb : ¬ loan.balance - amount ≤ 0) :
    recordPayment false false s loanId amount txnId now =
      (storeCreateTransaction
        (storeUpdateLoan s
          { loan with balance := loan.balance - amount, updatedAt := now })
        { id := txnId, loanId := loan.id, amount := amount
          type := TransactionType.payment, timestamp := now },
       Except.ok
        { id := txnId, loanId := loan.id, amount := amount
          type := TransactionType.payment, timestamp := now }) := by
  unfold recordPayment
  rw [h]
  simp [hst, hb]

lemma txnNet_createTransaction (s : StoreState) (t : Transaction) :
    txnNet (storeCreateTransaction s t) = txnNet s + signedAmount t := by
  simp [txnNet, storeCreateTransaction]

lemma balanceSum_createTransaction (s : StoreState) (t : Transaction) :
    balanceSum (storeCreateTransaction s t) = balanceSum s := rfl

lemma txnNet_updateLoan (s : StoreState) (l' : Loan) :
    txnNet (storeUpdateLoan s l') = txnNet s := rfl

lemma balanceSum_updateLoan (s : StoreState) (l' : Loan) (loan : Loan)
    (h : getLoan s l'.id = some loan) :
    balanceSum (storeUpdateLoan s l') =
      balanceSum s - loan.balance + l'.balance := by
  unfold balanceSum storeUpdateLoan
  exact balanceSum_replaceById l'.id l' s.loans loan h

/-! ### Conservation of the ledger under failure-free operations -/

lemma step_preserves_conservation (s : StoreState) (op : Op)
    (hop : opNoOverpay s op = true) (h : txnNet s = balanceSum s) :
    txnNet (step s op) = balanceSum (step s op) := by
  cases op with
  | create ck principal baseRate variance rand loanId txnId now =>
      show txnNet (createLoan false false s ck principal baseRate variance
          rand loanId txnId now).1 =
        balanceSum (createLoan false false s ck principal baseRate variance
          rand loanId txnId now).1
      have h' : (s.txns.map signedAmount).sum =
          (s.loans.map Loan.balance).sum := h
      simp [createLoan, txnNet, balanceSum, storeCreateTransaction,
        signedAmount, h']
  | daily today now =>
      rw [show step s (Op.daily today now) =
        calculateDailyInterest today now s from rfl]
      rw [show txnNet (calculateDailyInterest today now s) = txnNet s from rfl]
      rw [calcDaily_balanceSum, h]
  | monthly todayDay now =>
      show txnNet (applyMonthlyInterest false false todayDay now s) =
        balanceSum (applyMonthlyInterest false false todayDay now s)
      unfold applyMonthlyInterest txnNet balanceSum
      simp only [List.map_append, List.sum_append]
      rw [monthlyProcess_balanceSum]
      unfold txnNet balanceSum at h
      rw [h]
  | payment loanId amount txnId now =>
      show txnNet (recordPayment false false s loanId amount txnId now).1 =
        balanceSum (recordPayment false false s loanId amount txnId now).1
      cases hg : getLoan s loanId with
      | none =>
          rw [recordPayment_not_found false false s loanId amount txnId now hg]
          exact h
      | some loan =>
          have hli : loan.id = loanId := by
            have := List.find?_some hg
            simpa using this
          by_cases hst : loan.status = "active"
          · have hga : getLoan s loan.id = some loan := by rw [hli]; exact hg
            have hop2 : amount ≤ loan.balance := by
              simp [opNoOverpay, hg, hst] at hop
              exact hop
            by_cases hb : loan.balance - amount ≤ 0
            · rw [recordPayment_clamp s loanId amount txnId now loan hg hst hb]
              have hb0 : loan.balance - amount = 0 :=
                le_antisymm hb (by linarith)
              simp only [txnNet_createTransaction,
                balanceSum_createTransaction, txnNet_updateLoan]
              rw [balanceSum_updateLoan s
                { loan with balance := 0, status := "closed", updatedAt := now }
                loan (by exact hga), h]
              simp [signedAmount]
              linarith
            · rw [recordPayment_noclamp s loanId amount txnId now loan hg
                hst hb]
              simp only [txnNet_createTransaction,
                balanceSum_createTransaction, txnNet_updateLoan]
              rw [balanceSum_updateLoan s
                { loan with balance := loan.balance - amount, updatedAt := now }
                loan (by exact hga), h]
              simp [signedAmount]
              ring
          · rw [recordPayment_not_active false false s loanId amount txnId now
              loan hg hst]
            exact h

lemma run_preserves_conservation (s : StoreState) (ops : List Op)
    (hops : traceNoOverpay s ops = true) (h : txnNet s = balanceSum s) :
    txnNet (run s ops) = balanceSum (run s ops) := by
  induction ops generalizing s with
  | nil => exact h
  | cons op rest ih =>
      simp only [traceNoOverpay, Bool.and_eq_true] at hops
      exact ih (step s op) hops.2
        (step_preserves_conservation s op hops.1 h)

lemma getLoan_after_update (s : StoreState) (i : ℕ) (loan l' : Loan)
    (hg : getLoan s i = some loan) (hid : l'.id = i) :
    getLoan (storeUpdateLoan s l') i = some l' := by
  unfold getLoan storeUpdateLoan
  rw [hid]
  exact find_replaceById i l' s.loans loan hg hid

lemma getLoan_createTransaction (s : StoreState) (t : Transaction) (i : ℕ) :
    getLoan (storeCreateTransaction s t) i = getLoan s i := rfl

/-! ## Claims -/

/-- C1 (counterexample): the conservation equation claimed by the spec —
sum of disbursement amounts plus interest amounts minus payment amounts
equals sum of balances plus sum of accruedInterest — already fails at a
quiescent point after one loan creation followed by one daily accrual:
accrual adds to `accruedInterest` without recording any transaction, so
the transaction side stays at 1000 while the loan side is 1001. -/
theorem c1_conservation_counterexample :
    ¬ (txnNet (run ⟨[], []⟩
          [Op.create "c" 1000 (365/1000) 0 3 1 2 0, Op.daily 5 6]) =
        balanceSum (run ⟨[], []⟩
          [Op.create "c" 1000 (365/1000) 0 3 1 2 0, Op.daily 5 6]) +
        accruedSum (run ⟨[], []⟩
          [Op.create "c" 1000 (365/1000) 0 3 1 2 0, Op.daily 5 6])) := by
  simp [run, step, List.foldl, createLoan, calculateDailyInterest,
    dailyStep, divRound16, roundHalfAwayFromZero, assignStatementCycleDay,
    storeCreateTransaction, txnNet, balanceSum, accruedSum, signedAmount]
  norm_num

/-- C1 (amended): over every sequence of engine operations in which no
payment exceeds the paid loan's current balance, the sum of disbursement
amounts plus interest amounts minus payment amounts equals the sum of
current balances (accrued-but-uncapitalized interest appears on neither
side, because accrual records no transaction). -/
theorem c1_conservation (s : StoreState) (ops : List Op)
    (hops : traceNoOverpay s ops = true) (h : txnNet s = balanceSum s) :
    txnNet (run s ops) = balanceSum (run s ops) :=
  run_preserves_conservation s ops hops h

/-- Witness for C1: a creation, an accrual and a capitalization, from the
empty store. -/
theorem c1_conservation_witness :
    traceNoOverpay ⟨[], []⟩
        [Op.create "c" 1000 (365/1000) 0 3 1 2 0, Op.daily 5 6,
         Op.monthly 4 7] = true ∧
    txnNet (run ⟨[], []⟩
        [Op.create "c" 1000 (365/1000) 0 3 1 2 0, Op.daily 5 6,
         Op.monthly 4 7]) =
      balanceSum (run ⟨[], []⟩
        [Op.create "c" 1000 (365/1000) 0 3 1 2 0, Op.daily 5 6,
         Op.monthly 4 7]) :=
  ⟨rfl, c1_conservation ⟨[], []⟩
    [Op.create "c" 1000 (365/1000) 0 3 1 2 0, Op.daily 5 6, Op.monthly 4 7]
    rfl rfl⟩

/-- C2: for an active loan and a positive payment amount, RecordPayment
returns a payment transaction carrying the original (unclamped) amount,
appends exactly that one transaction to the log, subtracts the amount
from the balance — clamping to exactly 0 and closing the loan when the
result is ≤ 0, so a full payment leaves balance 0 and status closed —
and a subsequent payment attempt on the now-closed loan fails. -/
theorem c2_record_payment (s : StoreState) (loanId : ℕ) (amount : ℚ)
    (txnId now : ℕ) (loan : Loan) (hg : getLoan s loanId = some loan)
    (hst : loan.status = "active") (hpos : 0 < amount) :
    (recordPayment false false s loanId amount txnId now).2 =
      Except.ok
        { id := txnId
          loanId := loan.id
          amount := amount
          type := TransactionType.payment
          timestamp := now } ∧
    (recordPayment false false s loanId amount txnId now).1.txns =
      s.txns ++
        [{ id := txnId
           loanId := loan.id
           amount := amount
           type := TransactionType.payment
           timestamp := now }] ∧
    (loan.balance - amount ≤ 0 →
      getLoan (recordPayment false false s loanId amount txnId now).1
          loanId =
        some
          { loan with
              balance := 0
              status := "closed"
              updatedAt := now } ∧
      ∀ amount₂ txnId₂ now₂,
        recordPayment false false
            (recordPayment false false s loanId amount txnId now).1
            loanId amount₂ txnId₂ now₂ =
          ((recordPayment false false s loanId amount txnId now).1,
           Except.error "loan is not active")) ∧
    (0 < loan.balance - amount →
      getLoan (recordPayment false false s loanId amount txnId now).1
          loanId =
        some
          { loan with
              balance := loan.balance - amount
              updatedAt := now }) := by
  have hli : loan.id = loanId := by
    have := List.find?_some hg
    simpa using this
  by_cases hb : loan.balance - amount ≤ 0
  · rw [recordPayment_clamp s loanId amount txnId now loan hg hst hb]
    have hgl :
        getLoan
          (storeCreateTransaction
            (storeUpdateLoan s
              { loan with
                  balance := 0
                  status := "closed"
                  updatedAt := now })
            { id := txnId
              loanId := loan.id
              amount := amount
              type := TransactionType.payment
              timestamp := now }) loanId =
        some
          { loan with
              balance := 0
              status := "closed"
              updatedAt := now } := by
      rw [getLoan_createTransaction]
      exact getLoan_after_update s loanId loan _ hg (by simp [hli])
    refine ⟨rfl, rfl, fun _ => ⟨hgl, fun amount₂ txnId₂ now₂ => ?_⟩,
      fun hb2 => absurd hb (by linarith)⟩
    exact recordPayment_not_active false false _ loanId amount₂ txnId₂ now₂
      _ hgl (by simp)
  · rw [recordPayment_noclamp s loanId amount txnId now loan hg hst hb]
    have hgl :
        getLoan
          (storeCreateTransaction
            (storeUpdateLoan s
              { loan with
                  balance := loan.balance - amount
                  updatedAt := now })
            { id := txnId
              loanId := loan.id
              amount := amount
              type := TransactionType.payment
              timestamp := now }) loanId =
        some
          { loan with
              balance := loan.balance - amount
              updatedAt := now } := by
      rw [getLoan_createTransaction]
      exact getLoan_after_update s loanId loan _ hg (by simp [hli])
    exact ⟨rfl, rfl, fun hb2 => absurd hb2 hb, fun _ => hgl⟩

/-- Witness for C2: a full payment of 600 on an active loan with balance
600 (spec scenario 4). -/
theorem c2_record_payment_witness :
    getLoan ⟨[⟨1, "c", 600, 600, 1/10, 0, 1/10, "active", 0, 0, none, 4,
        0⟩], []⟩ 1 =
      some ⟨1, "c", 600, 600, 1/10, 0, 1/10, "active", 0, 0, none, 4, 0⟩ ∧
    (0:ℚ) < 600 ∧
    (recordPayment false false
        ⟨[⟨1, "c", 600, 600, 1/10, 0, 1/10, "active", 0, 0, none, 4, 0⟩],
         []⟩ 1 600 9 9).2 =
      Except.ok
        { id := 9
          loanId := 1
          amount := 600
          type := TransactionType.payment
          timestamp := 9 } :=
  ⟨rfl, by norm_num,
    (c2_record_payment
      ⟨[⟨1, "c", 600, 600, 1/10, 0, 1/10, "active", 0, 0, none, 4, 0⟩], []⟩
      1 600 9 9
      ⟨1, "c", 600, 600, 1/10, 0, 1/10, "active", 0, 0, none, 4, 0⟩
      rfl rfl (by norm_num)).1⟩

/-- C3: within one calendar date, the daily accrual pass changes a loan's
accruedInterest exactly once: for an active loan not yet accrued today
with positive daily interest, the first run adds the daily interest and
records today as the last accrual date, and running the pass again on the
same date (any number of times, with any clock value) leaves the whole
store — so in particular accruedInterest, lastInterestCalculationDate and
every other loan field — unchanged. -/
theorem c3_daily_accrual_idempotent (s : StoreState) (today now : ℕ)
    (l : Loan) (hm : l ∈ s.loans) (hst : l.status = "active")
    (hdate : ¬ l.lastInterestCalculationDate = some today)
    (hpos : 0 < l.balance * divRound16 l.interestRate 365) :
    ({ l with
        accruedInterest :=
          l.accruedInterest + l.balance * divRound16 l.interestRate 365
        updatedAt := now
        lastInterestCalculationDate := some today } ∈
      (calculateDailyInterest today now s).loans) ∧
    ∀ now₂,
      calculateDailyInterest today now₂ (calculateDailyInterest today now s) =
        calculateDailyInterest today now s := by
  constructor
  · have := mem_calcDaily_of_active today now s l hm hst
    rwa [dailyStep_of_pos today now l hdate hpos] at this
  · intro now₂
    exact calcDaily_idem today now now₂ s

/-- Witness for C3: the scenario-2 loan (balance 1000.00, effective rate
0.10) on its first accrual day. -/
theorem c3_daily_accrual_idempotent_witness :
    (⟨1, "c", 1000, 1000, 1/10, 0, 1/10, "active", 0, 0, none, 4, 0⟩ : Loan)
        ∈ (⟨[⟨1, "c", 1000, 1000, 1/10, 0, 1/10, "active", 0, 0, none, 4,
            0⟩], []⟩ : StoreState).loans ∧
    (0:ℚ) < 1000 * divRound16 (1/10) 365 ∧
    ∀ now₂,
      calculateDailyInterest 5 now₂
          (calculateDailyInterest 5 6
            ⟨[⟨1, "c", 1000, 1000, 1/10, 0, 1/10, "active", 0, 0, none, 4,
              0⟩], []⟩) =
        calculateDailyInterest 5 6
          ⟨[⟨1, "c", 1000, 1000, 1/10, 0, 1/10, "active", 0, 0, none, 4,
            0⟩], []⟩ :=
  ⟨List.mem_singleton.mpr rfl,
   by
     unfold divRound16 roundHalfAwayFromZero
     rw [if_pos (by norm_num)]
     norm_num,
   (c3_daily_accrual_idempotent
     ⟨[⟨1, "c", 1000, 1000, 1/10, 0, 1/10, "active", 0, 0, none, 4, 0⟩], []⟩
     5 6 ⟨1, "c", 1000, 1000, 1/10, 0, 1/10, "active", 0, 0, none, 4, 0⟩
     (List.mem_singleton.mpr rfl) rfl (by simp)
     (by
       unfold divRound16 roundHalfAwayFromZero
       rw [if_pos (by norm_num)]
       norm_num)).2⟩

/-- C4 (counterexample): the daily interest is not the exact quotient
`balance × (effectiveRate / 365)`: for the scenario loan with balance
1000.00 and effective rate 0.10, one accrual day yields
0.2739726027397 (the quotient 0.10/365 rounded to shopspring's 16
decimal places before multiplying), which differs from the exact
1000.00 × (0.10/365) = 20/73. -/
theorem c4_exact_division_counterexample :
    (calculateDailyInterest 5 6
        ⟨[⟨1, "c", 1000, 1000, 1/10, 0, 1/10, "active", 0, 0, none, 4, 0⟩],
         []⟩).loans.map Loan.accruedInterest = [(2739726027397 : ℚ)/10^13] ∧
    ¬ ((2739726027397 : ℚ)/10^13 = 1000 * ((1/10)/365)) := by
  constructor
  · simp [calculateDailyInterest, dailyStep, divRound16,
      roundHalfAwayFromZero]
    norm_num
  · norm_num

/-- C4 (amended): for an active loan not yet accrued today with positive
daily interest, the accrual pass adds
`balance × divRound16(effectiveRate, 365)` — the quotient rounded to 16
decimal places (shopspring `Div`'s default `DivisionPrecision`), not the
unrounded quotient; for balance 1000.00 and rate 0.10 the added amount is
exactly 0.2739726027397. -/
theorem c4_daily_interest_rounded (l : Loan) (today now : ℕ)
    (hdate : ¬ l.lastInterestCalculationDate = some today)
    (hpos : 0 < l.balance * divRound16 l.interestRate 365) :
    (dailyStep today now l).accruedInterest =
      l.accruedInterest + l.balance * divRound16 l.interestRate 365 ∧
    (1000 : ℚ) * divRound16 (1/10) 365 = (2739726027397 : ℚ)/10^13 := by
  constructor
  · rw [dailyStep_of_pos today now l hdate hpos]
  · unfold divRound16 roundHalfAwayFromZero
    rw [if_pos (by norm_num)]
    norm_num

/-- Witness for C4: the scenario-2 loan on its first accrual day. -/
theorem c4_daily_interest_rounded_witness :
    ¬ (⟨1, "c", 1000, 1000, 1/10, 0, 1/10, "active", 0, 0, none, 4, 0⟩ :
        Loan).lastInterestCalculationDate = some 5 ∧
    (0:ℚ) <
      (⟨1, "c", 1000, 1000, 1/10, 0, 1/10, "active", 0, 0, none, 4, 0⟩ :
        Loan).balance *
        divRound16
          (⟨1, "c", 1000, 1000, 1/10, 0, 1/10, "active", 0, 0, none, 4,
            0⟩ : Loan).interestRate 365 ∧
    (dailyStep 5 6
        ⟨1, "c", 1000, 1000, 1/10, 0, 1/10, "active", 0, 0, none, 4,
          0⟩).accruedInterest =
      (⟨1, "c", 1000, 1000, 1/10, 0, 1/10, "active", 0, 0, none, 4, 0⟩ :
          Loan).accruedInterest +
        1000 * divRound16 (1/10) 365 :=
  ⟨by simp,
   by
     unfold divRound16 roundHalfAwayFromZero
     rw [if_pos (by norm_num)]
     norm_num,
   (c4_daily_interest_rounded
     ⟨1, "c", 1000, 1000, 1/10, 0, 1/10, "active", 0, 0, none, 4, 0⟩ 5 6
     (by simp)
     (by
       unfold divRound16 roundHalfAwayFromZero
       rw [if_pos (by norm_num)]
       norm_num)).1⟩

/-- C5: for an active loan whose statementCycleDay equals today's
day-of-month (loan ids unique, as the store's primary key guarantees):
with positive accruedInterest the capitalization pass stores the loan
with accruedInterest added to the balance and accruedInterest reset to
0, and appends exactly one interest transaction for this loan, carrying
the pre-reset accruedInterest; with accruedInterest = 0 the loan is left
unchanged and no transaction is appended for it. -/
theorem c5_monthly_capitalization (s : StoreState) (todayDay now : ℕ)
    (l : Loan) (hn : (s.loans.map Loan.id).Nodup) (hm : l ∈ s.loans)
    (hst : l.status = "active") (hd : l.statementCycleDay = todayDay) :
    (0 < l.accruedInterest →
      ({ l with
          balance := l.balance + l.accruedInterest
          updatedAt := now
          accruedInterest := 0 } ∈
        (applyMonthlyInterest false false todayDay now s).loans) ∧
      (monthlyProcess false false todayDay now s.loans).2.filter
          (fun t => t.loanId = l.id) =
        [{ id := 0
           loanId := l.id
           amount := l.accruedInterest
           type := TransactionType.interest
           timestamp := now }] ∧
      (applyMonthlyInterest false false todayDay now s).txns =
        s.txns ++ (monthlyProcess false false todayDay now s.loans).2) ∧
    (l.accruedInterest = 0 →
      l ∈ (applyMonthlyInterest false false todayDay now s).loans ∧
      (monthlyProcess false false todayDay now s.loans).2.filter
          (fun t => t.loanId = l.id) = []) := by
  constructor
  · intro ha
    have hone := applyMonthlyOne_fires false false todayDay now l hd ha
    simp only [Bool.false_eq_true, if_false] at hone
    refine ⟨?_, ?_, rfl⟩
    · have := monthlyProcess_mem false false todayDay now s.loans l hm hst
      rwa [hone] at this
    · rw [monthlyProcess_filter false false todayDay now s.loans l hn hm,
        if_pos hst, hone]
      simp
  · intro h0
    have hskip : applyMonthlyOne false false todayDay now l = (l, none) :=
      applyMonthlyOne_skips false false todayDay now l
        (fun hc => by rw [h0] at hc; exact lt_irrefl 0 hc.2)
    constructor
    · have := monthlyProcess_mem false false todayDay now s.loans l hm hst
      rwa [hskip] at this
    · rw [monthlyProcess_filter false false todayDay now s.loans l hn hm,
        if_pos hst, hskip]
      rfl

/-- Witness for C5: the scenario-3 loan (accruedInterest 5.00, balance
1000.00, cycle day = today). -/
theorem c5_monthly_capitalization_witness :
    ((⟨[⟨1, "c", 1000, 1000, 1/10, 0, 1/10, "active", 0, 0, none, 4, 5⟩],
        []⟩ : StoreState).loans.map Loan.id).Nodup ∧
    (0:ℚ) < 5 ∧
    ({ (⟨1, "c", 1000, 1000, 1/10, 0, 1/10, "active", 0, 0, none, 4, 5⟩ :
        Loan) with
        balance := 1000 + 5
        updatedAt := 7
        accruedInterest := 0 } ∈
      (applyMonthlyInterest false false 4 7
        ⟨[⟨1, "c", 1000, 1000, 1/10, 0, 1/10, "active", 0, 0, none, 4, 5⟩],
         []⟩).loans) :=
  ⟨by simp, by norm_num,
    ((c5_monthly_capitalization
      ⟨[⟨1, "c", 1000, 1000, 1/10, 0, 1/10, "active", 0, 0, none, 4, 5⟩],
       []⟩ 4 7
      ⟨1, "c", 1000, 1000, 1/10, 0, 1/10, "active", 0, 0, none, 4, 5⟩
      (by simp) (List.mem_singleton.mpr rfl) rfl rfl).1
      (by norm_num)).1⟩

/-- C10: capitalization is not atomic: when `storage.UpdateLoan` fails
after `storage.CreateTransaction` succeeded for a firing loan, the pass
moves on, leaving the appended interest transaction in the store while
the stored loan record is unchanged — still carrying its
pre-capitalization balance and its (non-zero) accruedInterest. -/
theorem c10_capitalization_not_atomic (s : StoreState) (todayDay now : ℕ)
    (l : Loan) (hm : l ∈ s.loans) (hst : l.status = "active")
    (hd : l.statementCycleDay = todayDay) (ha : 0 < l.accruedInterest) :
    l ∈ (applyMonthlyInterest false true todayDay now s).loans ∧
    ({ id := 0
       loanId := l.id
       amount := l.accruedInterest
       type := TransactionType.interest
       timestamp := now } : Transaction) ∈
      (applyMonthlyInterest false true todayDay now s).txns ∧
    (applyMonthlyInterest false true todayDay now s).txns =
      s.txns ++ (monthlyProcess false true todayDay now s.loans).2 := by
  have hone := applyMonthlyOne_fires false true todayDay now l hd ha
  simp only [Bool.false_eq_true, if_false, if_true] at hone
  refine ⟨?_, ?_, rfl⟩
  · have := monthlyProcess_mem false true todayDay now s.loans l hm hst
    rwa [hone] at this
  · have hmem :=
      monthlyProcess_txn_mem false true todayDay now s.loans l
        { id := 0
          loanId := l.id
          amount := l.accruedInterest
          type := TransactionType.interest
          timestamp := now } hm hst (by rw [hone]; simp)
    exact List.mem_append_right _ hmem

/-- Witness for C10: the scenario-3 loan with the loan write failing. -/
theorem c10_capitalization_not_atomic_witness :
    (0:ℚ) < 5 ∧
    (⟨1, "c", 1000, 1000, 1/10, 0, 1/10, "active", 0, 0, none, 4, 5⟩ :
        Loan) ∈
      (applyMonthlyInterest false true 4 7
        ⟨[⟨1, "c", 1000, 1000, 1/10, 0, 1/10, "active", 0, 0, none, 4, 5⟩],
         []⟩).loans :=
  ⟨by norm_num,
    (c10_capitalization_not_atomic
      ⟨[⟨1, "c", 1000, 1000, 1/10, 0, 1/10, "active", 0, 0, none, 4, 5⟩],
       []⟩ 4 7
      ⟨1, "c", 1000, 1000, 1/10, 0, 1/10, "active", 0, 0, none, 4, 5⟩
      (List.mem_singleton.mpr rfl) rfl rfl (by norm_num)).1⟩

/-- C9: for a positive principal, CreateLoan produces the stored loan
with status active, balance = principal, accruedInterest = 0, effective
rate = baseRate + variance, and a statementCycleDay in [1,28], and
appends exactly one disbursement transaction with amount = principal. -/
theorem c9_create_loan (s : StoreState) (ck : String)
    (principal baseRate variance : ℚ) (rand loanId txnId now : ℕ)
    (hpos : 0 < principal) :
    ∃ loan : Loan,
      (createLoan false false s ck principal baseRate variance rand loanId
        txnId now).2 = Except.ok loan ∧
      loan.status = "active" ∧
      loan.balance = principal ∧
      loan.accruedInterest = 0 ∧
      loan.interestRate = baseRate + variance ∧
      1 ≤ loan.statementCycleDay ∧
      loan.statementCycleDay ≤ 28 ∧
      (createLoan false false s ck principal baseRate variance rand loanId
        txnId now).1.loans = s.loans ++ [loan] ∧
      (createLoan false false s ck principal baseRate variance rand loanId
        txnId now).1.txns =
        s.txns ++
          [{ id := txnId
             loanId := loanId
             amount := principal
             type := TransactionType.disbursement
             timestamp := now }] := by
  refine ⟨_, rfl, rfl, rfl, rfl, rfl, ?_, ?_, rfl, rfl⟩
  · show 1 ≤ assignStatementCycleDay rand
    unfold assignStatementCycleDay
    omega
  · show assignStatementCycleDay rand ≤ 28
    unfold assignStatementCycleDay
    have : rand % (28 - 1 + 1) < 28 - 1 + 1 := Nat.mod_lt _ (by norm_num)
    omega

/-- Witness for C9: spec scenario 1 (principal 1000.00, base rate 0.12,
variance -0.02). -/
theorem c9_create_loan_witness :
    (0:ℚ) < 1000 ∧
    ∃ loan : Loan,
      (createLoan false false ⟨[], []⟩ "cust123" 1000 (12/100) (-2/100) 3
        1 2 0).2 = Except.ok loan ∧
      loan.status = "active" ∧
      loan.balance = 1000 ∧
      loan.accruedInterest = 0 ∧
      loan.interestRate = 12/100 + (-2/100) ∧
      1 ≤ loan.statementCycleDay ∧
      loan.statementCycleDay ≤ 28 ∧
      (createLoan false false ⟨[], []⟩ "cust123" 1000 (12/100) (-2/100) 3
        1 2 0).1.loans = ([] : List Loan) ++ [loan] ∧
      (createLoan false false ⟨[], []⟩ "cust123" 1000 (12/100) (-2/100) 3
        1 2 0).1.txns =
        ([] : List Transaction) ++
          [{ id := 2
             loanId := 1
             amount := 1000
             type := TransactionType.disbursement
             timestamp := 0 }] :=
  ⟨by norm_num,
    c9_create_loan ⟨[], []⟩ "cust123" 1000 (12/100) (-2/100) 3 1 2 0
      (by norm_num)⟩

/-- C6 (counterexample): the Ledger engine does not validate principal
positivity: CreateLoan with principal −5 succeeds — it returns the loan
instead of a ValidationError, and the store gains a loan whose balance
is −5 together with a disbursement transaction of −5. -/
theorem c6_validation_counterexample :
    (createLoan false false ⟨[], []⟩ "c" (-5) (1/10) 0 3 1 2 0).1.loans.map
        Loan.balance = [-5] ∧
    (createLoan false false ⟨[], []⟩ "c" (-5) (1/10) 0 3 1 2
        0).1.txns.map Transaction.amount = [-5] ∧
    ∃ loan, (createLoan false false ⟨[], []⟩ "c" (-5) (1/10) 0 3 1 2 0).2 =
      Except.ok loan := by
  refine ⟨rfl, rfl, ⟨_, rfl⟩⟩

/-- C6 (amended): positivity of the payment amount is enforced only at
the HTTP API layer, whose handler rejects a non-positive amount with
"Amount must be positive" and no store change before the engine is
invoked; the Ledger engine itself performs no positivity validation —
CreateLoan accepts any principal (including non-positive ones) and
persists the loan and its disbursement transaction. -/
theorem c6_no_engine_validation :
    (∀ (s : StoreState) (loanId : ℕ) (amount : ℚ) (txnId now : ℕ),
      amount ≤ 0 →
        recordPaymentHandler s loanId amount txnId now =
          (s, Except.error "Amount must be positive")) ∧
    (∀ (s : StoreState) (ck : String) (principal baseRate variance : ℚ)
        (rand loanId txnId now : ℕ),
      ∃ loan : Loan,
        (createLoan false false s ck principal baseRate variance rand
          loanId txnId now).2 = Except.ok loan ∧
        (createLoan false false s ck principal baseRate variance rand
          loanId txnId now).1.loans = s.loans ++ [loan] ∧
        loan.balance = principal) := by
  constructor
  · intro s loanId amount txnId now hle
    unfold recordPaymentHandler
    rw [if_pos hle]
  · intro s ck principal baseRate variance rand loanId txnId now
    exact ⟨_, rfl, rfl, rfl⟩

/-- Witness for C6: the handler rejects a payment of −3 on the empty
store. -/
theorem c6_no_engine_validation_witness :
    (-3 : ℚ) ≤ 0 ∧
    recordPaymentHandler ⟨[], []⟩ 1 (-3) 2 3 =
      (⟨[], []⟩, Except.error "Amount must be positive") :=
  ⟨by norm_num,
    c6_no_engine_validation.1 ⟨[], []⟩ 1 (-3) 2 3 (by norm_num)⟩

/-- C7: payment and loan creation are NOT atomic in the code — each is
two separate store calls with no shared commit scope.  For a payment of
100 on an active loan with balance 600, when the transaction append
fails after the loan update succeeded, the stored balance is already 500
while no payment transaction exists, and the caller gets an error; for a
creation of principal 1000, when the disbursement append fails after the
loan write succeeded, the loan stays in the store with no disbursement
transaction.  This contradicts the claimed single atomic commit scope. -/
theorem c7_payment_creation_not_atomic :
    (recordPayment false true
        ⟨[⟨1, "c", 1000, 600, 1/10, 0, 1/10, "active", 0, 0, none, 4, 0⟩],
         []⟩ 1 100 9 9).1.loans.map Loan.balance = [500] ∧
    (recordPayment false true
        ⟨[⟨1, "c", 1000, 600, 1/10, 0, 1/10, "active", 0, 0, none, 4, 0⟩],
         []⟩ 1 100 9 9).1.txns = [] ∧
    (recordPayment false true
        ⟨[⟨1, "c", 1000, 600, 1/10, 0, 1/10, "active", 0, 0, none, 4, 0⟩],
         []⟩ 1 100 9 9).2 =
      Except.error "failed to store payment transaction" ∧
    (createLoan false true ⟨[], []⟩ "c" 1000 (1/10) 0 3 1 2 0).1.loans.map
        Loan.balance = [1000] ∧
    (createLoan false true ⟨[], []⟩ "c" 1000 (1/10) 0 3 1 2 0).1.txns =
      [] ∧
    (createLoan false true ⟨[], []⟩ "c" 1000 (1/10) 0 3 1 2 0).2 =
      Except.error "failed to store disbursement transaction" := by
  refine ⟨?_, ?_, ?_, rfl, rfl, rfl⟩ <;>
    norm_num [recordPayment, getLoan, storeUpdateLoan, replaceById,
      List.find?]

lemma applyMonthlyOne_status (failTxn failUpdate : Bool) (todayDay now : ℕ)
    (l : Loan) :
    (applyMonthlyOne failTxn failUpdate todayDay now l).1.status =
      l.status := by
  by_cases h : l.statementCycleDay = todayDay ∧ 0 < l.accruedInterest
  · rw [applyMonthlyOne_fires failTxn failUpdate todayDay now l h.1 h.2]
    cases failTxn
    · cases failUpdate <;> rfl
    · rfl
  · rw [applyMonthlyOne_skips failTxn failUpdate todayDay now l h]

lemma monthlyProcess_mem_rev (failTxn failUpdate : Bool) (todayDay now : ℕ)
    (ls : List Loan) (l' : Loan)
    (h : l' ∈ (monthlyProcess failTxn failUpdate todayDay now ls).1) :
    ∃ x ∈ ls, l' = x ∨
      (x.status = "active" ∧
        l' = (applyMonthlyOne failTxn failUpdate todayDay now x).1) := by
  induction ls with
  | nil => simp [monthlyProcess] at h
  | cons x rest ih =>
      by_cases hx : x.status = "active"
      · simp only [monthlyProcess, if_pos hx] at h
        rcases List.mem_cons.mp h with h1 | h1
        · exact ⟨x, List.mem_cons_self _ _, Or.inr ⟨hx, h1⟩⟩
        · rcases ih h1 with ⟨y, hy, hy2⟩
          exact ⟨y, List.mem_cons_of_mem _ hy, hy2⟩
      · simp only [monthlyProcess, if_neg hx] at h
        rcases List.mem_cons.mp h with h1 | h1
        · exact ⟨x, List.mem_cons_self _ _, Or.inl h1⟩
        · rcases ih h1 with ⟨y, hy, hy2⟩
          exact ⟨y, List.mem_cons_of_mem _ hy, hy2⟩

/-- C8 (counterexample): closed is not terminal under the full engine
interface: UpdateLoan is a whole-record pass-through, so updating a
closed loan with a record whose status is "active" stores it as active
again — and DeleteLoan removes a closed loan rather than being a no-op
on it. -/
theorem c8_status_counterexample :
    ((ledgerUpdateLoan
        ⟨[⟨1, "c", 100, 0, 1/10, 0, 1/10, "closed", 0, 0, none, 4, 0⟩],
         []⟩
        ⟨1, "c", 100, 50, 1/10, 0, 1/10, "active", 0, 3, none, 4, 0⟩
        9).1.loans.map Loan.status = ["active"]) ∧
    ((ledgerDeleteLoan
        ⟨[⟨1, "c", 100, 0, 1/10, 0, 1/10, "closed", 0, 0, none, 4, 0⟩],
         []⟩ 1).1.loans = []) := by
  constructor
  · rfl
  · rfl

/-- C8 (amended): among the engine operations that implement the loan
lifecycle (creation, daily accrual, monthly capitalization, payment),
a closed loan's stored record is never modified, any closed loan after
an operation was either already closed or was closed by a payment of an
amount at least the loan's balance, and a payment on a non-active loan
fails with the not-active error; UpdateLoan and DeleteLoan, however, are
store pass-throughs outside this discipline (see the counterexample). -/
theorem c8_status_machine :
    (∀ (s : StoreState) (op : Op) (l : Loan), l ∈ s.loans →
      l.status = "closed" → l ∈ (step s op).loans) ∧
    (∀ (s : StoreState) (today now : ℕ) (l' : Loan),
      l' ∈ (step s (Op.daily today now)).loans → l'.status = "closed" →
        l' ∈ s.loans) ∧
    (∀ (s : StoreState) (todayDay now : ℕ) (l' : Loan),
      l' ∈ (step s (Op.monthly todayDay now)).loans →
        l'.status = "closed" → l' ∈ s.loans) ∧
    (∀ (s : StoreState) (ck : String) (p b v : ℚ) (r li ti n : ℕ)
        (l' : Loan),
      l' ∈ (step s (Op.create ck p b v r li ti n)).loans →
        l'.status = "closed" → l' ∈ s.loans) ∧
    (∀ (s : StoreState) (lid : ℕ) (amt : ℚ) (ti n : ℕ) (l' : Loan),
      l' ∈ (step s (Op.payment lid amt ti n)).loans →
        l'.status = "closed" →
        l' ∈ s.loans ∨
          ∃ loan, getLoan s lid = some loan ∧ loan.status = "active" ∧
            loan.balance ≤ amt ∧
            l' = { loan with
                     balance := 0
                     status := "closed"
                     updatedAt := n }) ∧
    (∀ (s : StoreState) (lid : ℕ) (amt : ℚ) (ti n : ℕ) (loan : Loan),
      getLoan s lid = some loan → ¬ loan.status = "active" →
        recordPayment false false s lid amt ti n =
          (s, Except.error "loan is not active")) := by
  have hact : ("closed" : String) ≠ "active" := by decide
  refine ⟨?_, ?_, ?_, ?_, ?_, ?_⟩
  · intro s op l hm hcl
    cases op with
    | create ck p b v r li ti n =>
        exact List.mem_append_left _ hm
    | daily today now =>
        show l ∈ (calculateDailyInterest today now s).loans
        unfold calculateDailyInterest
        have himg :
            (fun x => if x.status = "active" then dailyStep today now x
              else x) l = l := by
          show (if l.status = "active" then dailyStep today now l else l) = l
          rw [if_neg (by rw [hcl]; exact hact)]
        rw [← himg]
        exact List.mem_map_of_mem _ hm
    | monthly todayDay now =>
        exact monthlyProcess_mem_inactive false false todayDay now s.loans
          l hm (by rw [hcl]; exact hact)
    | payment lid amt ti n =>
        show l ∈ (recordPayment false false s lid amt ti n).1.loans
        cases hg : getLoan s lid with
        | none =>
            rw [recordPayment_not_found false false s lid amt ti n hg]
            exact hm
        | some loan =>
            by_cases hst : loan.status = "active"
            · have hne : l ≠ loan := by
                intro he
                rw [he, hst] at hcl
                exact absurd hcl (by decide)
              have hli : loan.id = lid := by
                have := List.find?_some hg
                simpa using this
              have hf : List.find? (fun x => x.id = loan.id) s.loans =
                  some loan := by
                rw [hli]
                exact hg
              by_cases hb : loan.balance - amt ≤ 0
              · rw [recordPayment_clamp s lid amt ti n loan hg hst hb]
                exact mem_replaceById_of_ne loan.id _ s.loans loan l hf hm
                  hne
              · rw [recordPayment_noclamp s lid amt ti n loan hg hst hb]
                exact mem_replaceById_of_ne loan.id _ s.loans loan l hf hm
                  hne
            · rw [recordPayment_not_active false false s lid amt ti n loan
                hg hst]
              exact hm
  · intro s today now l' h hcl
    rcases List.mem_map.mp h with ⟨x, hx, hfx⟩
    by_cases hxa : x.status = "active"
    · rw [if_pos hxa] at hfx
      rw [← hfx, dailyStep_status] at hcl
      rw [hcl] at hxa
      exact absurd hxa (by decide)
    · rw [if_neg hxa] at hfx
      rw [← hfx]
      exact hx
  · intro s todayDay now l' h hcl
    rcases monthlyProcess_mem_rev false false todayDay now s.loans l' h
      with ⟨x, hx, hcase⟩
    rcases hcase with h1 | ⟨hxa, h1⟩
    · rw [h1]; exact hx
    · rw [h1, applyMonthlyOne_status] at hcl
      rw [hcl] at hxa
      exact absurd hxa (by decide)
  · intro s ck p b v r li ti n l' h hcl
    rcases List.mem_append.mp h with h1 | h1
    · exact h1
    · have : l'.status = "active" := by
        rcases List.mem_singleton.mp h1 with rfl
        rfl
      rw [hcl] at this
      exact absurd this (by decide)
  · intro s lid amt ti n l' h hcl
    revert h
    show l' ∈ (recordPayment false false s lid amt ti n).1.loans → _
    cases hg : getLoan s lid with
    | none =>
        rw [recordPayment_not_found false false s lid amt ti n hg]
        exact fun h => Or.inl h
    | some loan =>
        by_cases hst : loan.status = "active"
        · by_cases hb : loan.balance - amt ≤ 0
          · rw [recordPayment_clamp s lid amt ti n loan hg hst hb]
            intro h
            rcases mem_replaceById _ _ s.loans l' h with h1 | h1
            · exact Or.inl h1
            · exact Or.inr ⟨loan, rfl, hst, by linarith, h1⟩
          · rw [recordPayment_noclamp s lid amt ti n loan hg hst hb]
            intro h
            rcases mem_replaceById _ _ s.loans l' h with h1 | h1
            · exact Or.inl h1
            · rw [h1] at hcl
              rw [show ({ loan with
                    balance := loan.balance - amt
                    updatedAt := n } : Loan).status = loan.status from rfl,
                hst] at hcl
              exact absurd hcl (by decide)
        · rw [recordPayment_not_active false false s lid amt ti n loan hg
            hst]
          exact fun h => Or.inl h
  · intro s lid amt ti n loan hg hst
    exact recordPayment_not_active false false s lid amt ti n loan hg hst

/-- Witness for C8: a closed loan is untouched by a daily accrual pass. -/
theorem c8_status_machine_witness :
    (⟨1, "c", 100, 0, 1/10, 0, 1/10, "closed", 0, 0, none, 4, 0⟩ : Loan) ∈
      (⟨[⟨1, "c", 100, 0, 1/10, 0, 1/10, "closed", 0, 0, none, 4, 0⟩],
        []⟩ : StoreState).loans ∧
    (⟨1, "c", 100, 0, 1/10, 0, 1/10, "closed", 0, 0, none, 4, 0⟩ :
        Loan).status = "closed" ∧
    (⟨1, "c", 100, 0, 1/10, 0, 1/10, "closed", 0, 0, none, 4, 0⟩ : Loan) ∈
      (step ⟨[⟨1, "c", 100, 0, 1/10, 0, 1/10, "closed", 0, 0, none, 4, 0⟩],
        []⟩ (Op.daily 5 6)).loans :=
  ⟨List.mem_singleton.mpr rfl, rfl,
    c8_status_machine.1
      ⟨[⟨1, "c", 100, 0, 1/10, 0, 1/10, "closed", 0, 0, none, 4, 0⟩], []⟩
      (Op.daily 5 6)
      ⟨1, "c", 100, 0, 1/10, 0, 1/10, "closed", 0, 0, none, 4, 0⟩
      (List.mem_singleton.mpr rfl) rfl⟩
